import Mathlib

/-! # Endpoint addresses, the socket address probe and the GSSAPI client handshake

A shallow embedding of `src/old/address.cpp` (the C++ `zmq::address_t`, the free
function `zmq::get_socket_address` and the Rust `Address` that follows them in the
same file) and of the GSSAPI client mechanism declared in
`src/old/gssapi_client.hpp`.

Conventions of the embedding:

* a raw pointer is a natural number, the null pointer is `0`;
* `std::string` / `String` is a Lean `String`;
* a C++ member function that writes through a reference parameter takes the old
  value of that parameter and returns the new one together with the return code;
* code that lives outside the two source files (the per-transport renderers, the
  operating system calls, the GSSAPI library) is a parameter of the function that
  calls it.
-/

namespace zmq

/-! ## Pointers and build configuration -/

/-- A raw pointer value. -/
abbrev ptr_t := Nat

/-- The null pointer. -/
def NULL : ptr_t := 0

/-- The conditional-compilation switches that `address.cpp` tests with
`#ifdef` / `#if defined`. -/
structure build_t where
  ZMQ_HAVE_WS : Bool
  ZMQ_HAVE_WSS : Bool
  ZMQ_HAVE_IPC : Bool
  ZMQ_HAVE_TIPC : Bool
  ZMQ_HAVE_VMCI : Bool
  deriving DecidableEq, Repr

namespace protocol_name

/-- Modelled from the spec: the constant `protocol_name::tcp` is declared in
`address.hpp`, which is not among the sources; the spec lists the tag as `tcp`. -/
def tcp : String := "tcp"

/-- Modelled from the spec: the constant `protocol_name::udp` is declared in
`address.hpp`, which is not among the sources; the spec lists the tag as `udp`. -/
def udp : String := "udp"

/-- Modelled from the spec: the constant `protocol_name::ws` is declared in
`address.hpp`, which is not among the sources; the spec lists the tag as `ws`. -/
def ws : String := "ws"

/-- Modelled from the spec: the constant `protocol_name::wss` is declared in
`address.hpp`, which is not among the sources; the spec lists the tag as `wss`. -/
def wss : String := "wss"

/-- Modelled from the spec: the constant `protocol_name::ipc` is declared in
`address.hpp`, which is not among the sources; the spec lists the tag as `ipc`. -/
def ipc : String := "ipc"

/-- Modelled from the spec: the constant `protocol_name::tipc` is declared in
`address.hpp`, which is not among the sources; the spec lists the tag as `tipc`. -/
def tipc : String := "tipc"

/-- Modelled from the spec: the constant `protocol_name::vmci` is declared in
`address.hpp`, which is not among the sources; the spec lists the tag as `vmci`. -/
def vmci : String := "vmci"

end protocol_name

/-! ## `zmq::address_t` -/

/-- The members of the anonymous union `resolved` that `address.cpp` names.
All of them are pointers sharing the same storage. -/
inductive member_t where
  | dummy
  | tcp_addr
  | udp_addr
  | ws_addr
  | ipc_addr
  | tipc_addr
  | vmci_addr
  deriving DecidableEq, Repr

/-- The data members of `zmq::address_t`.  `resolved` is a union of pointers, so it
is one pointer value whatever member it is read through. -/
structure address_t where
  protocol : String
  address : String
  parent : ptr_t
  resolved : ptr_t
  deriving DecidableEq, Repr

/-- The renderers of the resolved variants (`tcp_address_t::to_string`, ...), which
live in other translation units.  Each takes the pointer it is called on and the
old content of the output string, and gives the return code and the new content. -/
structure renderers_t where
  tcp_addr : ptr_t → String → Int × String
  udp_addr : ptr_t → String → Int × String
  ws_addr : ptr_t → String → Int × String
  ipc_addr : ptr_t → String → Int × String
  tipc_addr : ptr_t → String → Int × String
  vmci_addr : ptr_t → String → Int × String

/-- What a call of `address_t::to_string` leaves behind: the object itself (the
member function is `const`), the return code and the output string `addr_`. -/
structure to_string_result where
  self : address_t
  rc : Int
  addr_ : String
  deriving DecidableEq, Repr

/-- The statement `return resolved.x->to_string (addr_);` inside a `const` member. -/
def address_t.defer (self : address_t) (r : Int × String) : to_string_result :=
  { self := self, rc := r.1, addr_ := r.2 }

/-- Constructor `address_t::address_t (protocol_, address_, parent_)`
(address.cpp lines 21-27). -/
def address_t.ctor (protocol_ address_ : String) (parent_ : ptr_t) : address_t :=
  { protocol := protocol_, address := address_, parent := parent_, resolved := NULL }

/-- Member function `address_t::to_string (std::string &addr_) const`
(address.cpp lines 65-100). -/
def address_t.to_string (cfg : build_t) (R : renderers_t) (self : address_t)
    (addr_ : String) : to_string_result :=
  if self.protocol = protocol_name.tcp ∧ self.resolved ≠ NULL then
    self.defer (R.tcp_addr self.resolved addr_)
  else if self.protocol = protocol_name.udp ∧ self.resolved ≠ NULL then
    self.defer (R.udp_addr self.resolved addr_)
  else if cfg.ZMQ_HAVE_WS = true ∧ self.protocol = protocol_name.ws
      ∧ self.resolved ≠ NULL then
    self.defer (R.ws_addr self.resolved addr_)
  else if cfg.ZMQ_HAVE_WSS = true ∧ self.protocol = protocol_name.wss
      ∧ self.resolved ≠ NULL then
    self.defer (R.ws_addr self.resolved addr_)
  else if cfg.ZMQ_HAVE_IPC = true ∧ self.protocol = protocol_name.ipc
      ∧ self.resolved ≠ NULL then
    self.defer (R.ipc_addr self.resolved addr_)
  else if cfg.ZMQ_HAVE_TIPC = true ∧ self.protocol = protocol_name.tipc
      ∧ self.resolved ≠ NULL then
    self.defer (R.tipc_addr self.resolved addr_)
  else if cfg.ZMQ_HAVE_VMCI = true ∧ self.protocol = protocol_name.vmci
      ∧ self.resolved ≠ NULL then
    self.defer (R.vmci_addr self.resolved addr_)
  else if self.protocol ≠ "" ∧ self.address ≠ "" then
    { self := self, rc := 0, addr_ := self.protocol ++ "://" ++ self.address }
  else
    { self := self, rc := -1, addr_ := "" }

/-- What a destructor run leaves behind: the objects handed to `delete`, each with
the union member it was deleted through, and the final value of `resolved`. -/
structure destroyed_t where
  released : List (member_t × ptr_t)
  resolved : ptr_t
  deriving DecidableEq, Repr

/-- Modelled from the spec: the macro `LIBZMQ_DELETE` is defined in `macros.hpp`,
which is not among the sources; by the spec destruction frees the heap-allocated
parsed structure of the populated variant.  `delete` of a null pointer frees
nothing, and the pointer is null afterwards. -/
def LIBZMQ_DELETE (m : member_t) (p : ptr_t) : destroyed_t :=
  { released := if p = NULL then [] else [(m, p)], resolved := NULL }

/-- Destructor `address_t::~address_t ()` (address.cpp lines 29-63). -/
def address_t.destructor (cfg : build_t) (self : address_t) : destroyed_t :=
  if self.protocol = protocol_name.tcp then
    LIBZMQ_DELETE member_t.tcp_addr self.resolved
  else if self.protocol = protocol_name.udp then
    LIBZMQ_DELETE member_t.udp_addr self.resolved
  else if cfg.ZMQ_HAVE_WS = true ∧ self.protocol = protocol_name.ws then
    LIBZMQ_DELETE member_t.ws_addr self.resolved
  else if cfg.ZMQ_HAVE_WSS = true ∧ self.protocol = protocol_name.wss then
    LIBZMQ_DELETE member_t.ws_addr self.resolved
  else if cfg.ZMQ_HAVE_IPC = true ∧ self.protocol = protocol_name.ipc then
    LIBZMQ_DELETE member_t.ipc_addr self.resolved
  else if cfg.ZMQ_HAVE_TIPC = true ∧ self.protocol = protocol_name.tipc then
    LIBZMQ_DELETE member_t.tipc_addr self.resolved
  else if cfg.ZMQ_HAVE_VMCI = true ∧ self.protocol = protocol_name.vmci then
    LIBZMQ_DELETE member_t.vmci_addr self.resolved
  else
    { released := [], resolved := self.resolved }

/-- The protocol tags a build supports: `tcp` and `udp` always, the others when
their switch is on. -/
def supported (cfg : build_t) (protocol : String) : Prop :=
  protocol = "tcp" ∨ protocol = "udp"
    ∨ (cfg.ZMQ_HAVE_WS = true ∧ protocol = "ws")
    ∨ (cfg.ZMQ_HAVE_WSS = true ∧ protocol = "wss")
    ∨ (cfg.ZMQ_HAVE_IPC = true ∧ protocol = "ipc")
    ∨ (cfg.ZMQ_HAVE_TIPC = true ∧ protocol = "tipc")
    ∨ (cfg.ZMQ_HAVE_VMCI = true ∧ protocol = "vmci")

instance (cfg : build_t) (protocol : String) : Decidable (supported cfg protocol) := by
  unfold supported; infer_instance

/-- The invariant of the data model on the C++ object: the union holds at most one
pointer by construction, and when it holds one the protocol tag is one that selects
a member of the union. -/
def address_t.invariant (cfg : build_t) (self : address_t) : Prop :=
  self.resolved ≠ NULL → supported cfg self.protocol

instance (cfg : build_t) (self : address_t) : Decidable (self.invariant cfg) := by
  unfold address_t.invariant; infer_instance

/-! ## `zmq::get_socket_address` -/

/-- Modelled from the spec: the enumeration `socket_end_t` is declared in
`address.hpp`, which is not among the sources; the code names `socket_end_local`
and the spec gives the two ends as local and peer. -/
inductive socket_end_t where
  | socket_end_local
  | socket_end_peer
  deriving DecidableEq, Repr

/-- The content of a `sockaddr_storage` buffer, as bytes. -/
abbrev sockaddr_storage := List Nat

/-- The outcome of `getsockname` / `getpeername`: the return code, the length the
call left in `*addrlen` and the content it left in the buffer. -/
structure lookup_t where
  rc : Int
  sl : Nat
  ss : sockaddr_storage
  deriving DecidableEq, Repr

/-- The operating system as seen by `get_socket_address`: the size of
`sockaddr_storage` and the two calls, each taking the descriptor, the buffer and the
length passed in. -/
structure os_t where
  sizeof_sockaddr_storage : Nat
  getsockname : Int → sockaddr_storage → Nat → lookup_t
  getpeername : Int → sockaddr_storage → Nat → lookup_t

/-- What `get_socket_address` leaves behind: the returned length and the buffer. -/
structure probe_t where
  ret : Nat
  ss_ : sockaddr_storage
  deriving DecidableEq, Repr

/-- The system call `get_socket_address` makes for the given end
(the conditional expression of address.cpp lines 108-111). -/
def lookup (os : os_t) (fd_ : Int) (socket_end_ : socket_end_t)
    (ss_ : sockaddr_storage) : lookup_t :=
  if socket_end_ = socket_end_t.socket_end_local then
    os.getsockname fd_ ss_ os.sizeof_sockaddr_storage
  else
    os.getpeername fd_ ss_ os.sizeof_sockaddr_storage

/-- Function `get_socket_address (fd_, socket_end_, ss_)` (address.cpp lines 102-114). -/
def get_socket_address (os : os_t) (fd_ : Int) (socket_end_ : socket_end_t)
    (ss_ : sockaddr_storage) : probe_t :=
  let r := lookup os fd_ socket_end_ ss_
  { ret := if r.rc ≠ 0 then 0 else r.sl, ss_ := r.ss }

/-! ## The Rust `Address` (address.cpp lines 116-174) -/

namespace rust

/-- Rust `std::ptr::null_mut ()`. -/
def null_mut : ptr_t := 0

/-- Rust `enum ResolvedAddress`. -/
inductive ResolvedAddress where
  | Dummy (p : ptr_t)
  | Tcp (p : ptr_t)
  | Udp (p : ptr_t)
  deriving DecidableEq, Repr

/-- Rust `struct Address`. -/
structure Address where
  protocol : String
  address : String
  parent : ptr_t
  resolved : ResolvedAddress
  deriving DecidableEq, Repr

/-- Rust `Address::new (protocol, address, parent)`. -/
def Address.new (protocol address : String) (parent : ptr_t) : Address :=
  { protocol := protocol, address := address, parent := parent,
    resolved := ResolvedAddress.Dummy null_mut }

/-- Rust `Box::from_raw (addr)` of the standard library, whose box is dropped at
once and so frees the object `addr` points to.  The pointer must come from a live
box; on a null pointer the behaviour is undefined, which is `none`. -/
def Box.from_raw (addr : ptr_t) : Option ptr_t :=
  if addr = null_mut then none else some addr

/-- Rust `impl Drop for Address`: the result lists the variants whose object was
freed through `Box::from_raw`, and is `none` when the behaviour is undefined. -/
def Address.drop (self : Address) : Option (List ResolvedAddress) :=
  match self.protocol with
  | "tcp" =>
    match self.resolved with
    | ResolvedAddress.Tcp addr =>
      match Box.from_raw addr with
      | some freed => some [ResolvedAddress.Tcp freed]
      | none => none
    | _ => some []
  | "udp" =>
    match self.resolved with
    | ResolvedAddress.Udp addr =>
      match Box.from_raw addr with
      | some freed => some [ResolvedAddress.Udp freed]
      | none => none
    | _ => some []
  | _ => some []

/-- The slot is empty when the enum holds the `Dummy` variant or a null pointer,
as the C++ union is empty when its pointer is null. -/
def ResolvedAddress.is_empty : ResolvedAddress → Bool
  | ResolvedAddress.Dummy _ => true
  | ResolvedAddress.Tcp p => decide (p = null_mut)
  | ResolvedAddress.Udp p => decide (p = null_mut)

/-- The invariant of the data model on the Rust value: the enum holds one variant
by construction, and a populated `Tcp` / `Udp` variant goes with the protocol of
that name. -/
def Address.invariant (self : Address) : Prop :=
  match self.resolved with
  | ResolvedAddress.Dummy _ => True
  | ResolvedAddress.Tcp p => p ≠ null_mut → self.protocol = "tcp"
  | ResolvedAddress.Udp p => p ≠ null_mut → self.protocol = "udp"

instance (self : Address) : Decidable self.invariant := by
  unfold Address.invariant
  cases self.resolved <;> infer_instance

end rust

/-! ## The GSSAPI client mechanism

`gssapi_client.hpp` declares the class; its member functions are defined in a
translation unit that is not among the sources, so they are modelled from the
specification of the mechanism contract and of the client state machine. -/

namespace gssapi_client_t

/-- Enumeration `gssapi_client_t::state_t` (gssapi_client.hpp lines 29-36). -/
inductive state_t where
  | call_next_init
  | recv_next_token
  | send_ready
  | recv_ready
  | connected
  deriving DecidableEq, Repr

/-- Modelled from the spec: the enumeration `status_t` belongs to the mechanism
base class, which is not among the sources; the spec gives its values as
handshaking, ready and error. -/
inductive status_t where
  | handshaking
  | ready
  | error
  deriving DecidableEq, Repr

/-- Modelled from the spec: the class `msg_t` is only forward-declared; the spec
fixes no byte layout beyond the kind of a message, so a kind is either a context
token, the ready metadata, or application data. -/
inductive kind_t where
  | token
  | ready
  | data
  deriving DecidableEq, Repr

/-- Modelled from the spec: a message is its kind and an opaque payload
(the class `msg_t` is only forward-declared). -/
structure msg_t where
  kind : kind_t
  body : List Nat
  deriving DecidableEq, Repr

/-- Modelled from the spec: the purpose the single token buffer currently serves
(the header has `token_ptr` point to either the send or the receive buffer). -/
inductive purpose_t where
  | to_send
  | to_process
  deriving DecidableEq, Repr

/-- Modelled from the spec: the error taxonomy of the mechanism (section 7 of the
spec), with one more value for an `encode` / `decode` attempted before the
mechanism is ready, which the spec calls an error without naming it. -/
inductive error_t where
  | HandshakeSequenceError
  | SecurityContextError
  | IntegrityError
  | MechanismNotReady
  deriving DecidableEq, Repr

/-- Modelled from the spec: what the context-initialization primitive of the
authentication library reports: continue (an output token, a reply is expected),
complete (an optional final output token) or error. -/
inductive init_result_t where
  | continue_needed (output : List Nat)
  | complete (output : Option (List Nat))
  | error
  deriving DecidableEq, Repr

/-- Modelled from the spec: the external authentication library as the client
uses it during one call: the context-initialization primitive (given the input
token, if any), the wrap and unwrap primitives (failing with `none`) and the payload
of the ready message. -/
structure gss_t where
  init_sec_context : Option (List Nat) → init_result_t
  wrap : List Nat → Option (List Nat)
  unwrap : List Nat → Option (List Nat)
  ready_metadata : List Nat

/-- The data members of `gssapi_client_t` (gssapi_client.hpp lines 38-54);
`token_ptr` holds the buffer in flight with its purpose, and `failed` records that
`status ()` has become error. -/
structure client_t where
  service_name : String
  service_name_type : Nat
  state : state_t
  token_ptr : Option (purpose_t × List Nat)
  mechs : List Nat
  security_context_established : Bool
  failed : Bool
  deriving DecidableEq, Repr

/-- Modelled from the spec: the result of `next_handshake_command`
(`Message | NoneYet | Error`). -/
inductive next_t where
  | message (m : msg_t)
  | none_yet
  | error (e : error_t)
  deriving DecidableEq, Repr

/-- Modelled from the spec: the constructor `gssapi_client_t (session_, options_)`
is only declared; by the spec the state `call_next_init` is entered at
construction, with no token in flight and no security context yet. -/
def ctor (service_name : String) (service_name_type : Nat) (mechs : List Nat) :
    client_t :=
  { service_name := service_name, service_name_type := service_name_type,
    state := state_t.call_next_init, token_ptr := none, mechs := mechs,
    security_context_established := false, failed := false }

/-- Modelled from the spec: `status ()` is only declared; by the spec it is error
after any failure, ready once connected, and handshaking before. -/
def status (c : client_t) : status_t :=
  if c.failed = true then status_t.error
  else if c.state = state_t.connected then status_t.ready
  else status_t.handshaking

/-- Modelled from the spec: the input the context-initialization primitive gets:
no token on the first call, the token just received from the peer afterwards. -/
def input_token (c : client_t) : Option (List Nat) :=
  match c.token_ptr with
  | some (purpose_t.to_process, t) => some t
  | _ => none

/-- Modelled from the spec: the row `send_ready` of the state table (the function
is only declared): emit the ready message and go to `recv_ready`. -/
def produce_ready (L : gss_t) (c : client_t) : client_t × next_t :=
  ({ c with state := state_t.recv_ready },
    next_t.message { kind := kind_t.ready, body := L.ready_metadata })

/-- Modelled from the spec: `next_handshake_command` is only declared.  By the
state table of the spec: in `call_next_init` the context-initialization primitive
is invoked; on continue its token is sent and the state becomes `recv_next_token`;
on complete `security_context_established` becomes true, a pending output token is
flushed before the state becomes `send_ready`, and without one the ready exchange
starts at once; on error the status becomes error.  In `send_ready` the ready
message is sent.  In the other states nothing is due. -/
def next_handshake_command (L : gss_t) (c : client_t) : client_t × next_t :=
  match c.state with
  | state_t.call_next_init =>
    match L.init_sec_context (input_token c) with
    | init_result_t.continue_needed output =>
      ({ c with state := state_t.recv_next_token, token_ptr := none },
        next_t.message { kind := kind_t.token, body := output })
    | init_result_t.complete (some output) =>
      ({ c with state := state_t.send_ready, token_ptr := none,
                security_context_established := true },
        next_t.message { kind := kind_t.token, body := output })
    | init_result_t.complete none =>
      produce_ready L { c with state := state_t.send_ready, token_ptr := none,
                               security_context_established := true }
    | init_result_t.error =>
      ({ c with failed := true }, next_t.error error_t.SecurityContextError)
  | state_t.send_ready => produce_ready L c
  | state_t.recv_next_token => (c, next_t.none_yet)
  | state_t.recv_ready => (c, next_t.none_yet)
  | state_t.connected => (c, next_t.none_yet)

/-- Modelled from the spec: `process_handshake_command` is only declared.  By the
state table of the spec: in `recv_next_token` a token message is consumed (kept as
the token to process) and the state goes back to `call_next_init`; in `recv_ready`
a ready message is consumed and the state becomes `connected`; a message of any
other kind, and any message in a state that expects none, is a handshake-sequence
error, which sets the status to error. -/
def process_handshake_command (c : client_t) (m : msg_t) :
    client_t × Except error_t Unit :=
  match c.state with
  | state_t.recv_next_token =>
    match m.kind with
    | kind_t.token =>
      ({ c with state := state_t.call_next_init,
                token_ptr := some (purpose_t.to_process, m.body) }, Except.ok ())
    | _ => ({ c with failed := true }, Except.error error_t.HandshakeSequenceError)
  | state_t.recv_ready =>
    match m.kind with
    | kind_t.ready => ({ c with state := state_t.connected }, Except.ok ())
    | _ => ({ c with failed := true }, Except.error error_t.HandshakeSequenceError)
  | _ => ({ c with failed := true }, Except.error error_t.HandshakeSequenceError)

/-- Modelled from the spec: `encode` is only declared.  By the spec it is valid
only once `status ()` is ready; it then wraps the message with the security
context, and a failure of the wrap primitive sets the status to error. -/
def encode (L : gss_t) (c : client_t) (m : msg_t) : client_t × Except error_t msg_t :=
  if status c = status_t.ready then
    match L.wrap m.body with
    | some w => (c, Except.ok { m with body := w })
    | none => ({ c with failed := true }, Except.error error_t.SecurityContextError)
  else
    (c, Except.error error_t.MechanismNotReady)

/-- Modelled from the spec: `decode` is only declared.  By the spec it is valid
only once `status ()` is ready; it then unwraps the message with the security
context, and a message that fails verification is an integrity error, which sets
the status to error. -/
def decode (L : gss_t) (c : client_t) (m : msg_t) : client_t × Except error_t msg_t :=
  if status c = status_t.ready then
    match L.unwrap m.body with
    | some u => (c, Except.ok { m with body := u })
    | none => ({ c with failed := true }, Except.error error_t.IntegrityError)
  else
    (c, Except.error error_t.MechanismNotReady)

/-- The kind of inbound handshake message a state expects, if it expects one
(the column "on receive" of the state table). -/
def expected_kind : state_t → Option kind_t
  | state_t.recv_next_token => some kind_t.token
  | state_t.recv_ready => some kind_t.ready
  | _ => none

/-- One call made by the session on the mechanism, with the behaviour of the
authentication library during that call. -/
inductive call_t where
  | next_handshake_command (L : gss_t)
  | process_handshake_command (m : msg_t)
  | encode (L : gss_t) (m : msg_t)
  | decode (L : gss_t) (m : msg_t)

/-- The client after one call. -/
def step (c : client_t) : call_t → client_t
  | call_t.next_handshake_command L => (next_handshake_command L c).1
  | call_t.process_handshake_command m => (process_handshake_command c m).1
  | call_t.encode L m => (encode L c m).1
  | call_t.decode L m => (decode L c m).1

/-- The client after a sequence of calls. -/
def run (c : client_t) (calls : List call_t) : client_t :=
  calls.foldl step c

end gssapi_client_t

/-! # Theorems -/

/-! ## Helper lemmas on `address_t::to_string` -/

theorem supported_iff (cfg : build_t) (protocol : String) :
    supported cfg protocol ↔
      (protocol = protocol_name.tcp ∨ protocol = protocol_name.udp
        ∨ (cfg.ZMQ_HAVE_WS = true ∧ protocol = protocol_name.ws)
        ∨ (cfg.ZMQ_HAVE_WSS = true ∧ protocol = protocol_name.wss)
        ∨ (cfg.ZMQ_HAVE_IPC = true ∧ protocol = protocol_name.ipc)
        ∨ (cfg.ZMQ_HAVE_TIPC = true ∧ protocol = protocol_name.tipc)
        ∨ (cfg.ZMQ_HAVE_VMCI = true ∧ protocol = protocol_name.vmci)) :=
  Iff.rfl

/-- With a null `resolved` no renderer is reached: `to_string` is its fallback. -/
theorem to_string_of_null (cfg : build_t) (R : renderers_t) (self : address_t)
    (addr_ : String) (h : self.resolved = NULL) :
    self.to_string cfg R addr_ =
      if self.protocol ≠ "" ∧ self.address ≠ "" then
        { self := self, rc := 0, addr_ := self.protocol ++ "://" ++ self.address }
      else
        { self := self, rc := -1, addr_ := "" } := by
  unfold address_t.to_string
  simp [h]

/-- With a protocol tag the build does not support no renderer is reached. -/
theorem to_string_of_unsupported (cfg : build_t) (R : renderers_t) (self : address_t)
    (addr_ : String) (h : ¬ supported cfg self.protocol) :
    self.to_string cfg R addr_ =
      if self.protocol ≠ "" ∧ self.address ≠ "" then
        { self := self, rc := 0, addr_ := self.protocol ++ "://" ++ self.address }
      else
        { self := self, rc := -1, addr_ := "" } := by
  rw [supported_iff] at h
  simp only [not_or, not_and] at h
  obtain ⟨h1, h2, h3, h4, h5, h6, h7⟩ := h
  unfold address_t.to_string
  rw [if_neg (fun c => h1 c.1), if_neg (fun c => h2 c.1), if_neg (fun c => h3 c.1 c.2.1),
    if_neg (fun c => h4 c.1 c.2.1), if_neg (fun c => h5 c.1 c.2.1),
    if_neg (fun c => h6 c.1 c.2.1), if_neg (fun c => h7 c.1 c.2.1)]

/-- A call of `to_string` hands back the object it was called on. -/
theorem to_string_self (cfg : build_t) (R : renderers_t) (self : address_t)
    (addr_ : String) : (self.to_string cfg R addr_).self = self := by
  unfold address_t.to_string address_t.defer
  repeat' split
  all_goals rfl

/-! ## `address_t::to_string` -/

/-- C1: for an Address whose resolved slot is empty, `to_string` returns 0 with the
output `protocol ++ "://" ++ address` when protocol and address are both non-empty,
returns -1 in every other case, and so returns 0 exactly when both are non-empty. -/
theorem to_string_unresolved (cfg : build_t) (R : renderers_t) (self : address_t)
    (addr_ : String) (h : self.resolved = NULL) :
    ((self.protocol ≠ "" ∧ self.address ≠ "") →
        (self.to_string cfg R addr_).rc = 0
          ∧ (self.to_string cfg R addr_).addr_ = self.protocol ++ "://" ++ self.address)
      ∧ (¬ (self.protocol ≠ "" ∧ self.address ≠ "") →
        (self.to_string cfg R addr_).rc = -1)
      ∧ ((self.to_string cfg R addr_).rc = 0 ↔ (self.protocol ≠ "" ∧ self.address ≠ "")) := by
  rw [to_string_of_null cfg R self addr_ h]
  by_cases hb : self.protocol ≠ "" ∧ self.address ≠ ""
  · rw [if_pos hb]
    exact ⟨fun _ => ⟨rfl, rfl⟩, fun hn => absurd hb hn, fun _ => hb, fun _ => rfl⟩
  · rw [if_neg hb]
    refine ⟨fun hp => absurd hp hb, fun _ => rfl, fun h0 => ?_, fun hp => absurd hp hb⟩
    have h1 : (-1 : Int) = 0 := h0
    exact absurd h1 (by decide)

/-- Witness of C1 at the freshly constructed `tcp://127.0.0.1:5555`. -/
theorem to_string_unresolved_witness :
    (address_t.ctor "tcp" "127.0.0.1:5555" 0).resolved = NULL
      ∧ (((address_t.ctor "tcp" "127.0.0.1:5555" 0).to_string
            ⟨true, true, true, true, true⟩
            ⟨fun _ s => (0, s), fun _ s => (0, s), fun _ s => (0, s), fun _ s => (0, s),
              fun _ s => (0, s), fun _ s => (0, s)⟩ "stale").rc = 0
          ↔ ((address_t.ctor "tcp" "127.0.0.1:5555" 0).protocol ≠ ""
              ∧ (address_t.ctor "tcp" "127.0.0.1:5555" 0).address ≠ "")) :=
  ⟨rfl, (to_string_unresolved _ _ _ _ rfl).2.2⟩

/-- When the resolved slot is populated and the protocol is a supported tag,
`to_string` is the `return` statement of the branch of that tag. -/
theorem to_string_branch (cfg : build_t) (R : renderers_t) (self : address_t)
    (addr_ : String) (h : self.resolved ≠ NULL) :
    (self.protocol = "tcp" →
        self.to_string cfg R addr_ = self.defer (R.tcp_addr self.resolved addr_))
      ∧ (self.protocol = "udp" →
        self.to_string cfg R addr_ = self.defer (R.udp_addr self.resolved addr_))
      ∧ (cfg.ZMQ_HAVE_WS = true → self.protocol = "ws" →
        self.to_string cfg R addr_ = self.defer (R.ws_addr self.resolved addr_))
      ∧ (cfg.ZMQ_HAVE_WSS = true → self.protocol = "wss" →
        self.to_string cfg R addr_ = self.defer (R.ws_addr self.resolved addr_))
      ∧ (cfg.ZMQ_HAVE_IPC = true → self.protocol = "ipc" →
        self.to_string cfg R addr_ = self.defer (R.ipc_addr self.resolved addr_))
      ∧ (cfg.ZMQ_HAVE_TIPC = true → self.protocol = "tipc" →
        self.to_string cfg R addr_ = self.defer (R.tipc_addr self.resolved addr_))
      ∧ (cfg.ZMQ_HAVE_VMCI = true → self.protocol = "vmci" →
        self.to_string cfg R addr_ = self.defer (R.vmci_addr self.resolved addr_)) := by
  refine ⟨?_, ?_, ?_, ?_, ?_, ?_, ?_⟩
  · intro hp
    unfold address_t.to_string
    simp [hp, h, protocol_name.tcp]
  · intro hp
    unfold address_t.to_string
    simp [hp, h, protocol_name.tcp, protocol_name.udp]
  · intro hc hp
    unfold address_t.to_string
    simp [hp, h, hc, protocol_name.tcp, protocol_name.udp, protocol_name.ws]
  · intro hc hp
    unfold address_t.to_string
    simp [hp, h, hc, protocol_name.tcp, protocol_name.udp, protocol_name.ws,
      protocol_name.wss]
  · intro hc hp
    unfold address_t.to_string
    simp [hp, h, hc, protocol_name.tcp, protocol_name.udp, protocol_name.ws,
      protocol_name.wss, protocol_name.ipc]
  · intro hc hp
    unfold address_t.to_string
    simp [hp, h, hc, protocol_name.tcp, protocol_name.udp, protocol_name.ws,
      protocol_name.wss, protocol_name.ipc, protocol_name.tipc]
  · intro hc hp
    unfold address_t.to_string
    simp [hp, h, hc, protocol_name.tcp, protocol_name.udp, protocol_name.ws,
      protocol_name.wss, protocol_name.ipc, protocol_name.tipc, protocol_name.vmci]

/-- C2: when the resolved slot is populated and the protocol is a supported tag,
the return code of `to_string` is the return code of the renderer of the union
member that tag selects (`ws_addr` for both `ws` and `wss`) and its output text is
the text that renderer wrote, whatever the address text is. -/
theorem to_string_resolved (cfg : build_t) (R : renderers_t) (self : address_t)
    (addr_ : String) (h : self.resolved ≠ NULL) :
    (self.protocol = "tcp" →
        (self.to_string cfg R addr_).rc = (R.tcp_addr self.resolved addr_).1
          ∧ (self.to_string cfg R addr_).addr_ = (R.tcp_addr self.resolved addr_).2)
      ∧ (self.protocol = "udp" →
        (self.to_string cfg R addr_).rc = (R.udp_addr self.resolved addr_).1
          ∧ (self.to_string cfg R addr_).addr_ = (R.udp_addr self.resolved addr_).2)
      ∧ (cfg.ZMQ_HAVE_WS = true → self.protocol = "ws" →
        (self.to_string cfg R addr_).rc = (R.ws_addr self.resolved addr_).1
          ∧ (self.to_string cfg R addr_).addr_ = (R.ws_addr self.resolved addr_).2)
      ∧ (cfg.ZMQ_HAVE_WSS = true → self.protocol = "wss" →
        (self.to_string cfg R addr_).rc = (R.ws_addr self.resolved addr_).1
          ∧ (self.to_string cfg R addr_).addr_ = (R.ws_addr self.resolved addr_).2)
      ∧ (cfg.ZMQ_HAVE_IPC = true → self.protocol = "ipc" →
        (self.to_string cfg R addr_).rc = (R.ipc_addr self.resolved addr_).1
          ∧ (self.to_string cfg R addr_).addr_ = (R.ipc_addr self.resolved addr_).2)
      ∧ (cfg.ZMQ_HAVE_TIPC = true → self.protocol = "tipc" →
        (self.to_string cfg R addr_).rc = (R.tipc_addr self.resolved addr_).1
          ∧ (self.to_string cfg R addr_).addr_ = (R.tipc_addr self.resolved addr_).2)
      ∧ (cfg.ZMQ_HAVE_VMCI = true → self.protocol = "vmci" →
        (self.to_string cfg R addr_).rc = (R.vmci_addr self.resolved addr_).1
          ∧ (self.to_string cfg R addr_).addr_ = (R.vmci_addr self.resolved addr_).2) := by
  obtain ⟨b1, b2, b3, b4, b5, b6, b7⟩ := to_string_branch cfg R self addr_ h
  refine ⟨fun hp => ?_, fun hp => ?_, fun hc hp => ?_, fun hc hp => ?_,
    fun hc hp => ?_, fun hc hp => ?_, fun hc hp => ?_⟩
  · rw [b1 hp]; exact ⟨rfl, rfl⟩
  · rw [b2 hp]; exact ⟨rfl, rfl⟩
  · rw [b3 hc hp]; exact ⟨rfl, rfl⟩
  · rw [b4 hc hp]; exact ⟨rfl, rfl⟩
  · rw [b5 hc hp]; exact ⟨rfl, rfl⟩
  · rw [b6 hc hp]; exact ⟨rfl, rfl⟩
  · rw [b7 hc hp]; exact ⟨rfl, rfl⟩

/-- Witness of C2: a resolved `tcp` Address with an empty address text returns the
code 0 and the text `203.0.113.5:9000` of the `tcp_addr` renderer, not the stale
content of the output string and not the fallback. -/
theorem to_string_resolved_witness :
    (address_t.mk "tcp" "" 0 7).resolved ≠ NULL
      ∧ ((address_t.mk "tcp" "" 0 7).to_string ⟨false, false, false, false, false⟩
          ⟨fun _ _ => (0, "203.0.113.5:9000"), fun _ s => (-1, s), fun _ s => (-1, s),
            fun _ s => (-1, s), fun _ s => (-1, s), fun _ s => (-1, s)⟩ "old").rc = 0
      ∧ ((address_t.mk "tcp" "" 0 7).to_string ⟨false, false, false, false, false⟩
          ⟨fun _ _ => (0, "203.0.113.5:9000"), fun _ s => (-1, s), fun _ s => (-1, s),
            fun _ s => (-1, s), fun _ s => (-1, s), fun _ s => (-1, s)⟩ "old").addr_
        = "203.0.113.5:9000" :=
  ⟨by decide, (to_string_resolved _ _ _ _ (by decide)).1 rfl⟩

/-- C10: on the fallback path (the slot is empty or the protocol is not a supported
tag, so no renderer is used) a failing `to_string` leaves the output string empty
whatever it held before, and a succeeding one gives a result that does not depend on
what the output string held before. -/
theorem to_string_fallback_output (cfg : build_t) (R : renderers_t) (self : address_t)
    (h : self.resolved = NULL ∨ ¬ supported cfg self.protocol) :
    ((self.protocol = "" ∨ self.address = "") →
        ∀ old : String, (self.to_string cfg R old).rc = -1
          ∧ (self.to_string cfg R old).addr_ = "")
      ∧ ((self.protocol ≠ "" ∧ self.address ≠ "") →
        ∀ old old' : String, (self.to_string cfg R old).rc = 0
          ∧ self.to_string cfg R old = self.to_string cfg R old') := by
  have key : ∀ old : String, self.to_string cfg R old =
      if self.protocol ≠ "" ∧ self.address ≠ "" then
        { self := self, rc := 0, addr_ := self.protocol ++ "://" ++ self.address }
      else
        { self := self, rc := -1, addr_ := "" } := by
    intro old
    rcases h with h | h
    · exact to_string_of_null cfg R self old h
    · exact to_string_of_unsupported cfg R self old h
  constructor
  · intro he old
    have hb : ¬ (self.protocol ≠ "" ∧ self.address ≠ "") := by
      rintro ⟨h1, h2⟩
      rcases he with he | he
      · exact h1 he
      · exact h2 he
    rw [key old, if_neg hb]
    exact ⟨rfl, rfl⟩
  · intro hb old old'
    rw [key old, key old', if_pos hb]
    exact ⟨rfl, rfl⟩

/-- Witness of C10: an unresolved Address with an empty address text clears a
stale output string. -/
theorem to_string_fallback_output_witness :
    ((address_t.ctor "tcp" "" 0).resolved = NULL
        ∨ ¬ supported ⟨true, true, true, true, true⟩ (address_t.ctor "tcp" "" 0).protocol)
      ∧ ((address_t.ctor "tcp" "" 0).to_string ⟨true, true, true, true, true⟩
          ⟨fun _ s => (0, s), fun _ s => (0, s), fun _ s => (0, s), fun _ s => (0, s),
            fun _ s => (0, s), fun _ s => (0, s)⟩ "stale text").addr_ = "" :=
  ⟨Or.inl rfl,
    ((to_string_fallback_output _ _ _ (Or.inl rfl)).1 (Or.inr rfl) "stale text").2⟩

/-! ## Construction and the invariant -/

/-- C5: a freshly constructed Address (C++ constructor and Rust `Address::new`)
stores protocol, address and parent unchanged and has an empty resolved slot, for
every protocol string; so the invariant holds after construction; `to_string` hands
back the Address unchanged and therefore preserves the invariant. -/
theorem fresh_address (cfg : build_t) (protocol_ address_ : String) (parent_ : ptr_t) :
    (address_t.ctor protocol_ address_ parent_).protocol = protocol_
      ∧ (address_t.ctor protocol_ address_ parent_).address = address_
      ∧ (address_t.ctor protocol_ address_ parent_).parent = parent_
      ∧ (address_t.ctor protocol_ address_ parent_).resolved = NULL
      ∧ (address_t.ctor protocol_ address_ parent_).invariant cfg
      ∧ (rust.Address.new protocol_ address_ parent_).protocol = protocol_
      ∧ (rust.Address.new protocol_ address_ parent_).address = address_
      ∧ (rust.Address.new protocol_ address_ parent_).parent = parent_
      ∧ (rust.Address.new protocol_ address_ parent_).resolved
          = rust.ResolvedAddress.Dummy rust.null_mut
      ∧ (rust.Address.new protocol_ address_ parent_).resolved.is_empty = true
      ∧ (rust.Address.new protocol_ address_ parent_).invariant
      ∧ (∀ (R : renderers_t) (self : address_t) (addr_ : String),
          (self.to_string cfg R addr_).self = self
            ∧ (self.invariant cfg → (self.to_string cfg R addr_).self.invariant cfg)) := by
  refine ⟨rfl, rfl, rfl, rfl, ?_, rfl, rfl, rfl, rfl, rfl, ?_, ?_⟩
  · intro hne
    exact absurd rfl hne
  · exact True.intro
  · intro R self addr_
    refine ⟨to_string_self cfg R self addr_, fun hinv => ?_⟩
    rw [to_string_self cfg R self addr_]
    exact hinv

/-! ## Destruction -/

/-- The C++ destructor deletes through the member its protocol tag selects, or
through none. -/
theorem destructor_cases (cfg : build_t) (self : address_t) :
    (supported cfg self.protocol
        ∧ ∃ m : member_t, self.destructor cfg = LIBZMQ_DELETE m self.resolved
          ∧ (self.protocol = "tcp" → m = member_t.tcp_addr)
          ∧ (self.protocol = "udp" → m = member_t.udp_addr)
          ∧ (self.protocol = "ws" → m = member_t.ws_addr)
          ∧ (self.protocol = "wss" → m = member_t.ws_addr)
          ∧ (self.protocol = "ipc" → m = member_t.ipc_addr)
          ∧ (self.protocol = "tipc" → m = member_t.tipc_addr)
          ∧ (self.protocol = "vmci" → m = member_t.vmci_addr))
      ∨ (¬ supported cfg self.protocol
        ∧ self.destructor cfg = { released := [], resolved := self.resolved }) := by
  unfold address_t.destructor
  simp only [supported, protocol_name.tcp, protocol_name.udp, protocol_name.ws,
    protocol_name.wss, protocol_name.ipc, protocol_name.tipc, protocol_name.vmci]
  split_ifs with h1 h2 h3 h4 h5 h6 h7
  · left; exact ⟨by simp [h1], _, rfl, by simp [h1]⟩
  · left; exact ⟨by simp [h2], _, rfl, by simp [h2]⟩
  · left; exact ⟨by simp [h3.1, h3.2], _, rfl, by simp [h3.2]⟩
  · left; exact ⟨by simp [h4.1, h4.2], _, rfl, by simp [h4.2]⟩
  · left; exact ⟨by simp [h5.1, h5.2], _, rfl, by simp [h5.2]⟩
  · left; exact ⟨by simp [h6.1, h6.2], _, rfl, by simp [h6.2]⟩
  · left; exact ⟨by simp [h7.1, h7.2], _, rfl, by simp [h7.2]⟩
  · right
    refine ⟨?_, rfl⟩
    simp only [not_and] at h3 h4 h5 h6 h7
    rintro (h | h | h | h | h | h | h)
    · exact h1 h
    · exact h2 h
    · exact h3 h.1 h.2
    · exact h4 h.1 h.2
    · exact h5 h.1 h.2
    · exact h6 h.1 h.2
    · exact h7 h.1 h.2

theorem LIBZMQ_DELETE_released (m : member_t) (p : ptr_t) (h : p ≠ NULL) :
    (LIBZMQ_DELETE m p).released = [(m, p)] := by
  unfold LIBZMQ_DELETE
  simp [h]

/-- The Rust `drop` frees nothing unless the protocol is `tcp` or `udp`. -/
theorem rust_drop_other (r : rust.Address) (h1 : r.protocol ≠ "tcp")
    (h2 : r.protocol ≠ "udp") : r.drop = some [] := by
  unfold rust.Address.drop
  split
  · next h => exact absurd h h1
  · next h => exact absurd h h2
  · rfl

theorem rust_drop_tcp (r : rust.Address) (h : r.protocol = "tcp") :
    r.drop = match r.resolved with
      | rust.ResolvedAddress.Tcp addr =>
        if addr = rust.null_mut then none else some [rust.ResolvedAddress.Tcp addr]
      | _ => some [] := by
  unfold rust.Address.drop
  split
  · cases r.resolved with
    | Tcp addr =>
      by_cases hn : addr = rust.null_mut <;> simp [rust.Box.from_raw, hn]
    | Dummy p => rfl
    | Udp p => rfl
  · next hu => rw [h] at hu; exact absurd hu (by decide)
  · next hn _ => exact absurd h hn

theorem rust_drop_udp (r : rust.Address) (h : r.protocol = "udp") :
    r.drop = match r.resolved with
      | rust.ResolvedAddress.Udp addr =>
        if addr = rust.null_mut then none else some [rust.ResolvedAddress.Udp addr]
      | _ => some [] := by
  unfold rust.Address.drop
  split
  · next ht => rw [h] at ht; exact absurd ht (by decide)
  · cases r.resolved with
    | Udp addr =>
      by_cases hn : addr = rust.null_mut <;> simp [rust.Box.from_raw, hn]
    | Dummy p => rfl
    | Tcp p => rfl
  · next _ hn => exact absurd h hn

/-- What destruction releases, the null pointer inside a Rust `Tcp` / `Udp` variant
apart.  The C++ destructor (first three conjuncts) releases at most one object;
nothing when the slot is empty or the protocol is not a supported tag; and under the
invariant, for a populated slot, exactly the object in the slot through the member
the protocol tag selects.  The Rust `drop` (last four conjuncts), when its behaviour
is defined, releases at most one object; nothing for the `Dummy` variant or a
protocol other than `tcp` and `udp`; under the invariant, for a populated slot,
exactly the variant held; and its behaviour is undefined exactly for a null pointer
inside the variant of the protocol. -/
theorem destruction_releases_selected (cfg : build_t) (self : address_t)
    (r : rust.Address) :
    (self.destructor cfg).released.length ≤ 1
      ∧ (self.resolved = NULL ∨ ¬ supported cfg self.protocol →
          (self.destructor cfg).released = [])
      ∧ (self.invariant cfg → self.resolved ≠ NULL →
          ∃ m : member_t, (self.destructor cfg).released = [(m, self.resolved)]
            ∧ (self.protocol = "tcp" → m = member_t.tcp_addr)
            ∧ (self.protocol = "udp" → m = member_t.udp_addr)
            ∧ (self.protocol = "ws" → m = member_t.ws_addr)
            ∧ (self.protocol = "wss" → m = member_t.ws_addr)
            ∧ (self.protocol = "ipc" → m = member_t.ipc_addr)
            ∧ (self.protocol = "tipc" → m = member_t.tipc_addr)
            ∧ (self.protocol = "vmci" → m = member_t.vmci_addr))
      ∧ (∀ freed : List rust.ResolvedAddress, r.drop = some freed → freed.length ≤ 1)
      ∧ ((∃ p : ptr_t, r.resolved = rust.ResolvedAddress.Dummy p)
            ∨ (r.protocol ≠ "tcp" ∧ r.protocol ≠ "udp") →
          r.drop = some [])
      ∧ (r.invariant → r.resolved.is_empty = false → r.drop = some [r.resolved])
      ∧ (r.drop = none ↔
          (r.protocol = "tcp" ∧ r.resolved = rust.ResolvedAddress.Tcp rust.null_mut)
            ∨ (r.protocol = "udp"
              ∧ r.resolved = rust.ResolvedAddress.Udp rust.null_mut)) := by
  refine ⟨?_, ?_, ?_, ?_, ?_, ?_, ?_⟩
  · rcases destructor_cases cfg self with ⟨_, m, hm, _⟩ | ⟨_, hd⟩
    · rw [hm]
      unfold LIBZMQ_DELETE
      split_ifs <;> simp
    · rw [hd]
      simp
  · intro h
    rcases destructor_cases cfg self with ⟨hs, m, hm, _⟩ | ⟨_, hd⟩
    · rcases h with h | h
      · rw [hm, h]
        rfl
      · exact absurd hs h
    · rw [hd]
  · intro hinv hne
    rcases destructor_cases cfg self with ⟨_, m, hm, hrest⟩ | ⟨hs, _⟩
    · exact ⟨m, by rw [hm, LIBZMQ_DELETE_released m _ hne], hrest⟩
    · exact absurd (hinv hne) hs
  · intro freed hf
    by_cases h1 : r.protocol = "tcp"
    · rw [rust_drop_tcp r h1] at hf
      cases hr : r.resolved with
      | Tcp addr =>
        rw [hr] at hf
        by_cases hn : addr = rust.null_mut
        · simp [hn] at hf
        · simp [hn] at hf
          subst hf
          simp
      | Dummy p => rw [hr] at hf; simp at hf; subst hf; simp
      | Udp p => rw [hr] at hf; simp at hf; subst hf; simp
    · by_cases h2 : r.protocol = "udp"
      · rw [rust_drop_udp r h2] at hf
        cases hr : r.resolved with
        | Udp addr =>
          rw [hr] at hf
          by_cases hn : addr = rust.null_mut
          · simp [hn] at hf
          · simp [hn] at hf
            subst hf
            simp
        | Dummy p => rw [hr] at hf; simp at hf; subst hf; simp
        | Tcp p => rw [hr] at hf; simp at hf; subst hf; simp
      · rw [rust_drop_other r h1 h2] at hf
        simp at hf
        subst hf
        simp
  · intro h
    rcases h with ⟨p, hp⟩ | ⟨h1, h2⟩
    · by_cases h1 : r.protocol = "tcp"
      · rw [rust_drop_tcp r h1, hp]
      · by_cases h2 : r.protocol = "udp"
        · rw [rust_drop_udp r h2, hp]
        · exact rust_drop_other r h1 h2
    · exact rust_drop_other r h1 h2
  · intro hinv hne
    unfold rust.Address.invariant at hinv
    cases hr : r.resolved with
    | Dummy p => rw [hr] at hne; exact absurd hne (by simp [rust.ResolvedAddress.is_empty])
    | Tcp p =>
      rw [hr] at hinv hne
      have hp : p ≠ rust.null_mut := by
        simpa [rust.ResolvedAddress.is_empty] using hne
      rw [rust_drop_tcp r (hinv hp), hr]
      simp [hp]
    | Udp p =>
      rw [hr] at hinv hne
      have hp : p ≠ rust.null_mut := by
        simpa [rust.ResolvedAddress.is_empty] using hne
      rw [rust_drop_udp r (hinv hp), hr]
      simp [hp]
  · by_cases h1 : r.protocol = "tcp"
    · have hu : r.protocol ≠ "udp" := by rw [h1]; decide
      rw [rust_drop_tcp r h1]
      cases hr : r.resolved with
      | Tcp addr =>
        by_cases hn : addr = rust.null_mut <;> simp [hn, h1]
      | Dummy p => simp
      | Udp p => simp [hu]
    · by_cases h2 : r.protocol = "udp"
      · rw [rust_drop_udp r h2]
        cases hr : r.resolved with
        | Udp addr =>
          by_cases hn : addr = rust.null_mut <;> simp [hn, h2]
        | Dummy p => simp
        | Tcp p => simp [h1]
      · rw [rust_drop_other r h1 h2]
        simp [h1, h2]

/-- A populated case of each destructor: the C++ Address `ipc` holding the object 5
releases it through `ipc_addr`, and the Rust Address `udp` holding `Udp 9` releases
that variant. -/
theorem destruction_releases_selected_populated :
    ((address_t.mk "ipc" "/tmp/feeds/0" 0 5).destructor
        ⟨true, true, true, true, true⟩).released = [(member_t.ipc_addr, 5)]
      ∧ (rust.Address.mk "udp" "239.0.0.1:5555" 0 (rust.ResolvedAddress.Udp 9)).drop
        = some [rust.ResolvedAddress.Udp 9] := by
  have key := destruction_releases_selected ⟨true, true, true, true, true⟩
    (address_t.mk "ipc" "/tmp/feeds/0" 0 5)
    (rust.Address.mk "udp" "239.0.0.1:5555" 0 (rust.ResolvedAddress.Udp 9))
  obtain ⟨m, hm, _, _, _, _, hipc, _⟩ := key.2.2.1 (by decide) (by decide)
  rw [hipc rfl] at hm
  exact ⟨hm, key.2.2.2.2.2.1 (by decide) rfl⟩

/-- C3: for every descriptor and both ends, `get_socket_address` returns 0 when the
lookup call (`getsockname` for local, `getpeername` for peer) fails and otherwise
the length that call wrote back; so a descriptor on which both calls fail gives 0
for both ends. -/
theorem get_socket_address_result (os : os_t) (fd_ : Int) (ss_ : sockaddr_storage) :
    ((os.getsockname fd_ ss_ os.sizeof_sockaddr_storage).rc ≠ 0 →
        (get_socket_address os fd_ socket_end_t.socket_end_local ss_).ret = 0)
      ∧ ((os.getsockname fd_ ss_ os.sizeof_sockaddr_storage).rc = 0 →
        (get_socket_address os fd_ socket_end_t.socket_end_local ss_).ret
          = (os.getsockname fd_ ss_ os.sizeof_sockaddr_storage).sl)
      ∧ ((os.getpeername fd_ ss_ os.sizeof_sockaddr_storage).rc ≠ 0 →
        (get_socket_address os fd_ socket_end_t.socket_end_peer ss_).ret = 0)
      ∧ ((os.getpeername fd_ ss_ os.sizeof_sockaddr_storage).rc = 0 →
        (get_socket_address os fd_ socket_end_t.socket_end_peer ss_).ret
          = (os.getpeername fd_ ss_ os.sizeof_sockaddr_storage).sl)
      ∧ ((os.getsockname fd_ ss_ os.sizeof_sockaddr_storage).rc ≠ 0 →
        (os.getpeername fd_ ss_ os.sizeof_sockaddr_storage).rc ≠ 0 →
        (get_socket_address os fd_ socket_end_t.socket_end_local ss_).ret = 0
          ∧ (get_socket_address os fd_ socket_end_t.socket_end_peer ss_).ret = 0) := by
  have hl : lookup os fd_ socket_end_t.socket_end_local ss_
      = os.getsockname fd_ ss_ os.sizeof_sockaddr_storage := rfl
  have hp : lookup os fd_ socket_end_t.socket_end_peer ss_
      = os.getpeername fd_ ss_ os.sizeof_sockaddr_storage := rfl
  have l1 : (os.getsockname fd_ ss_ os.sizeof_sockaddr_storage).rc ≠ 0 →
      (get_socket_address os fd_ socket_end_t.socket_end_local ss_).ret = 0 := by
    intro h
    simp only [get_socket_address, hl]
    exact if_pos h
  have p1 : (os.getpeername fd_ ss_ os.sizeof_sockaddr_storage).rc ≠ 0 →
      (get_socket_address os fd_ socket_end_t.socket_end_peer ss_).ret = 0 := by
    intro h
    simp only [get_socket_address, hp]
    exact if_pos h
  refine ⟨l1, ?_, p1, ?_, fun h1 h2 => ⟨l1 h1, p1 h2⟩⟩
  · intro h
    simp only [get_socket_address, hl]
    exact if_neg (not_not.mpr h)
  · intro h
    simp only [get_socket_address, hp]
    exact if_neg (not_not.mpr h)

/-- Witness of C3: on a descriptor for which both calls fail with -1 the probe
gives 0 for the local and for the peer end. -/
theorem get_socket_address_result_witness :
    (get_socket_address ⟨128, fun _ ss _ => ⟨-1, 128, ss⟩, fun _ ss _ => ⟨-1, 128, ss⟩⟩
        (-1) socket_end_t.socket_end_local []).ret = 0
      ∧ (get_socket_address ⟨128, fun _ ss _ => ⟨-1, 128, ss⟩, fun _ ss _ => ⟨-1, 128, ss⟩⟩
        (-1) socket_end_t.socket_end_peer []).ret = 0 :=
  (get_socket_address_result
    ⟨128, fun _ ss _ => ⟨-1, 128, ss⟩, fun _ ss _ => ⟨-1, 128, ss⟩⟩ (-1) []).2.2.2.2
    (by decide) (by decide)

/-- C4, as stated, fails: when `getpeername` succeeds (return code 0) and writes
back the length 0, `get_socket_address` returns 0 although the call did not fail. -/
theorem get_socket_address_zero_on_success :
    (get_socket_address ⟨128, fun _ ss _ => ⟨0, 16, ss⟩, fun _ ss _ => ⟨0, 0, ss⟩⟩
        3 socket_end_t.socket_end_peer []).ret = 0
      ∧ (lookup ⟨128, fun _ ss _ => ⟨0, 16, ss⟩, fun _ ss _ => ⟨0, 0, ss⟩⟩
        3 socket_end_t.socket_end_peer []).rc = 0 := by
  decide

/-- C4, amended: `get_socket_address` returns 0 exactly when the lookup call failed
or succeeded writing back the length 0; a non-zero result always means that the call
succeeded and is the length it wrote back. -/
theorem get_socket_address_zero_iff (os : os_t) (fd_ : Int) (socket_end_ : socket_end_t)
    (ss_ : sockaddr_storage) :
    ((get_socket_address os fd_ socket_end_ ss_).ret = 0 ↔
        ((lookup os fd_ socket_end_ ss_).rc ≠ 0 ∨ (lookup os fd_ socket_end_ ss_).sl = 0))
      ∧ ((get_socket_address os fd_ socket_end_ ss_).ret ≠ 0 →
        (lookup os fd_ socket_end_ ss_).rc = 0
          ∧ (get_socket_address os fd_ socket_end_ ss_).ret
            = (lookup os fd_ socket_end_ ss_).sl) := by
  simp only [get_socket_address]
  by_cases h : (lookup os fd_ socket_end_ ss_).rc ≠ 0
  · rw [if_pos h]
    exact ⟨⟨fun _ => Or.inl h, fun _ => rfl⟩, fun hne => absurd rfl hne⟩
  · rw [if_neg h]
    refine ⟨⟨fun h0 => Or.inr h0, fun hor => ?_⟩, fun _ => ⟨not_not.mp h, rfl⟩⟩
    rcases hor with hor | hor
    · exact absurd hor h
    · exact hor

/-! ## The GSSAPI client state machine -/

namespace gssapi_client_t

/-- From `send_ready` on the security context is established; every call keeps
it so. -/
theorem step_keeps_established (c : client_t) (k : call_t)
    (h : c.state = state_t.send_ready ∨ c.state = state_t.recv_ready
        ∨ c.state = state_t.connected → c.security_context_established = true) :
    (step c k).state = state_t.send_ready ∨ (step c k).state = state_t.recv_ready
        ∨ (step c k).state = state_t.connected →
      (step c k).security_context_established = true := by
  obtain ⟨sn, snt, st, tok, mechs, est, failed⟩ := c
  cases k with
  | next_handshake_command L =>
    cases st
    · simp only [step, next_handshake_command]
      split <;> simp [produce_ready]
    all_goals simp_all [step, next_handshake_command, produce_ready]
  | process_handshake_command m =>
    cases st
    all_goals simp only [step, process_handshake_command]
    all_goals first
      | (split <;> simp_all)
      | simp_all
  | encode L m =>
    simp only [step, encode]
    split
    · split
      all_goals simpa using h
    · simpa using h
  | decode L m =>
    simp only [step, decode]
    split
    · split
      all_goals simpa using h
    · simpa using h

theorem run_keeps_established (calls : List call_t) (c : client_t)
    (h : c.state = state_t.send_ready ∨ c.state = state_t.recv_ready
        ∨ c.state = state_t.connected → c.security_context_established = true) :
    (run c calls).state = state_t.send_ready ∨ (run c calls).state = state_t.recv_ready
        ∨ (run c calls).state = state_t.connected →
      (run c calls).security_context_established = true := by
  induction calls generalizing c with
  | nil => exact h
  | cons k rest ih =>
    have hs : run c (k :: rest) = run (step c k) rest := rfl
    rw [hs]
    exact ih (step c k) (step_keeps_established c k h)

/-- C6: in every state reached from construction by any sequence of
`next_handshake_command` / `process_handshake_command` / `encode` / `decode` calls,
`state == connected` implies `security_context_established == true`. -/
theorem connected_implies_established (service_name : String) (service_name_type : Nat)
    (mechs : List Nat) (calls : List call_t)
    (h : (run (ctor service_name service_name_type mechs) calls).state
      = state_t.connected) :
    (run (ctor service_name service_name_type mechs) calls).security_context_established
      = true := by
  apply run_keeps_established calls (ctor service_name service_name_type mechs)
  · intro h0
    have hc : (ctor service_name service_name_type mechs).state
        = state_t.call_next_init := rfl
    rw [hc] at h0
    rcases h0 with h0 | h0 | h0 <;> exact absurd h0 (by decide)
  · exact Or.inr (Or.inr h)

/-- Witness of C6: a full handshake (a token sent, the reply fed back, the context
completed with a last token to flush, the ready messages exchanged) reaches
`connected`, and the security context is established there. -/
theorem connected_implies_established_witness :
    (run (ctor "service@host" 0 [])
        [call_t.next_handshake_command
            ⟨fun t => match t with
              | none => init_result_t.continue_needed [1]
              | some _ => init_result_t.complete (some [2]),
             fun b => some b, fun b => some b, []⟩,
          call_t.process_handshake_command ⟨kind_t.token, [7]⟩,
          call_t.next_handshake_command
            ⟨fun t => match t with
              | none => init_result_t.continue_needed [1]
              | some _ => init_result_t.complete (some [2]),
             fun b => some b, fun b => some b, []⟩,
          call_t.next_handshake_command
            ⟨fun t => match t with
              | none => init_result_t.continue_needed [1]
              | some _ => init_result_t.complete (some [2]),
             fun b => some b, fun b => some b, []⟩,
          call_t.process_handshake_command ⟨kind_t.ready, []⟩]).state
        = state_t.connected
      ∧ (run (ctor "service@host" 0 [])
        [call_t.next_handshake_command
            ⟨fun t => match t with
              | none => init_result_t.continue_needed [1]
              | some _ => init_result_t.complete (some [2]),
             fun b => some b, fun b => some b, []⟩,
          call_t.process_handshake_command ⟨kind_t.token, [7]⟩,
          call_t.next_handshake_command
            ⟨fun t => match t with
              | none => init_result_t.continue_needed [1]
              | some _ => init_result_t.complete (some [2]),
             fun b => some b, fun b => some b, []⟩,
          call_t.next_handshake_command
            ⟨fun t => match t with
              | none => init_result_t.continue_needed [1]
              | some _ => init_result_t.complete (some [2]),
             fun b => some b, fun b => some b, []⟩,
          call_t.process_handshake_command ⟨kind_t.ready, []⟩]).security_context_established
        = true :=
  ⟨rfl, connected_implies_established _ _ _ _ rfl⟩

/-- C7: in every state, an inbound handshake message whose kind is not the one the
state expects makes `process_handshake_command` fail with the handshake-sequence
error, the state machine stays in the state it was in, and the status is error. -/
theorem wrong_kind_rejected (c : client_t) (m : msg_t)
    (h : expected_kind c.state ≠ some m.kind) :
    (process_handshake_command c m).2 = Except.error error_t.HandshakeSequenceError
      ∧ (process_handshake_command c m).1.state = c.state
      ∧ status (process_handshake_command c m).1 = status_t.error := by
  obtain ⟨sn, snt, st, tok, mechs, est, failed⟩ := c
  obtain ⟨kind, body⟩ := m
  cases st <;> cases kind <;>
    first
      | exact absurd rfl h
      | exact ⟨rfl, rfl, rfl⟩

/-- Witness of C7: a ready message fed while the client waits for a token. -/
theorem wrong_kind_rejected_witness :
    expected_kind (client_t.mk "service@host" 0 state_t.recv_next_token none [] false
        false).state ≠ some (msg_t.mk kind_t.ready []).kind
      ∧ (process_handshake_command
          (client_t.mk "service@host" 0 state_t.recv_next_token none [] false false)
          (msg_t.mk kind_t.ready [])).1.state = state_t.recv_next_token :=
  ⟨by decide, (wrong_kind_rejected _ _ (by decide)).2.1⟩

/-- C8: while the state is not `connected`, `encode` and `decode` of any message
return an error, so neither succeeds before the state machine has reached
`connected`. -/
theorem encode_decode_before_connected (L : gss_t) (c : client_t) (m : msg_t)
    (h : c.state ≠ state_t.connected) :
    (∃ e : error_t, (encode L c m).2 = Except.error e)
      ∧ (∃ e : error_t, (decode L c m).2 = Except.error e)
      ∧ (∀ r : msg_t, (encode L c m).2 ≠ Except.ok r)
      ∧ (∀ r : msg_t, (decode L c m).2 ≠ Except.ok r) := by
  have hs : status c ≠ status_t.ready := by
    unfold status
    rw [if_neg h]
    split <;> decide
  have he : (encode L c m).2 = Except.error error_t.MechanismNotReady := by
    unfold encode
    rw [if_neg hs]
  have hd : (decode L c m).2 = Except.error error_t.MechanismNotReady := by
    unfold decode
    rw [if_neg hs]
  refine ⟨⟨_, he⟩, ⟨_, hd⟩, fun r hr => ?_, fun r hr => ?_⟩
  · rw [he] at hr
    exact absurd hr (by simp)
  · rw [hd] at hr
    exact absurd hr (by simp)

/-- Witness of C8: a client waiting for the peer's ready message. -/
theorem encode_decode_before_connected_witness :
    (client_t.mk "service@host" 0 state_t.recv_ready none [] true false).state
        ≠ state_t.connected
      ∧ ∀ r : msg_t,
        (encode ⟨fun _ => init_result_t.error, fun b => some b, fun b => some b, []⟩
          (client_t.mk "service@host" 0 state_t.recv_ready none [] true false)
          ⟨kind_t.data, [1, 2, 3]⟩).2 ≠ Except.ok r :=
  ⟨by decide, (encode_decode_before_connected _ _ _ (by decide)).2.2.1⟩

end gssapi_client_t

end zmq
